import Mathlib

/-!
Shallow embedding of `src/main.py` (AIY voice-assistant front-end).

The embedding models the event dispatcher `MyAssistant._process_event`, the
button callback `MyAssistant._on_button_pressed`, and the module-level action
helpers (`power_off_pi`, `reboot_pi`, `say_ip`, `volume_down`, `volume_up`).
External side effects (status UI writes, TTS, shell commands, conversation
start/stop requests, prints, process exit) are recorded as an ordered effect
trace; the mutable state is the `_can_start_conversation` flag together with
the TTS volume kept by `aiy.audio`.  Python strings are modelled as Lean
strings with explicit character-list helpers mirroring `str.lower`,
`in` (substring test), `str.replace(old, new, 1)`, `str.replace('%','')`,
`str.split()` and `str.isdigit()`.
-/

/-- Python string truthiness (`bool(s)` for a `str`): nonempty is truthy.
Used to embed the guards `'what is' and ... in text` and
`'set' and ... in text` exactly as the source writes them. -/
def truthy (s : String) : Bool := !s.isEmpty

/-- Character-list prefix test (decidable equality on `Char`). -/
def isPrefixL : List Char → List Char → Bool
  | [], _ => true
  | _ :: _, [] => false
  | a :: as, b :: bs => decide (a = b) && isPrefixL as bs

/-- Substring containment on character lists: Python `pat in s`. -/
def containsL (pat : List Char) : List Char → Bool
  | [] => pat.isEmpty
  | c :: cs => isPrefixL pat (c :: cs) || containsL pat cs

/-- Python `pat in s` for strings (substring containment). -/
def pyContains (s pat : String) : Bool := containsL pat.data s.data

/-- Replace the first occurrence of `pat` (by the empty string):
Python `s.replace(pat, '', 1)` on character lists. -/
def replaceFirstL (pat : List Char) : List Char → List Char
  | [] => []
  | c :: cs => if isPrefixL pat (c :: cs) then (c :: cs).drop pat.length
               else c :: replaceFirstL pat cs

/-- Python `s.replace(pat, '', 1)` for strings. -/
def pyReplaceFirst (s pat : String) : String := ⟨replaceFirstL pat.data s.data⟩

/-- Python `s.lower()` (ASCII-adequate: maps each character to lower case). -/
def pyLower (s : String) : String := ⟨s.data.map Char.toLower⟩

/-- Python `s.replace('%', '')`: drop every occurrence of the character. -/
def pyRemoveAll (s : String) (c : Char) : String := ⟨s.data.filter (fun d => d ≠ c)⟩

/-- Python `s.split()`: split on whitespace runs, dropping empty tokens.
`cur` is the reversed current token accumulator. -/
def splitWsAux (cur : List Char) : List Char → List (List Char)
  | [] => if cur.isEmpty then [] else [cur.reverse]
  | c :: cs =>
      if c.isWhitespace then
        if cur.isEmpty then splitWsAux [] cs
        else cur.reverse :: splitWsAux [] cs
      else splitWsAux (c :: cur) cs

/-- Python `s.split()` for strings. -/
def pySplit (s : String) : List (List Char) := splitWsAux [] s.data

/-- Python `s.isdigit()` (ASCII digits; nonempty and all digits). -/
def pyIsDigit (s : List Char) : Bool := !s.isEmpty && s.all Char.isDigit

/-- Python `int(s)` on a string of digits. -/
def digitsToNat (s : List Char) : Nat := s.foldl (fun n c => 10 * n + (c.toNat - 48)) 0

/-- `[int(s) for s in text.split() if s.isdigit()]` from the set-volume branch. -/
def parseVolumes (text : String) : List Int :=
  ((pySplit text).filter pyIsDigit).map (fun t => (digitsToNat t : Int))

/-- Status values written to `aiy.voicehat.get_status_ui()`. -/
inductive Status where
  | ready
  | listening
  | thinking
deriving DecidableEq

/-- One externally visible side effect of the program, in program order. -/
inductive Effect where
  | setStatus (s : Status)
  | registerButton
  | printHint
  | printOut (s : String)
  | printVols (vs : List Int)
  | stopConversation
  | startConversation
  | say (s : String)
  | shell (cmd : String)
  | checkOutput (cmd : String)
  | setVolume (v : Int)
deriving DecidableEq

/-- Mutable state: the `_can_start_conversation` flag of `MyAssistant` and the
TTS volume held by `aiy.audio` (set/read by `set_tts_volume`/`get_tts_volume`). -/
structure AState where
  can_start_conversation : Bool
  volume : Int
deriving DecidableEq

/-- State after module import and `MyAssistant.__init__`: the module sets
`aiy.audio.set_tts_volume(2)` and the constructor sets
`self._can_start_conversation = False`. -/
def initState : AState := ⟨false, 2⟩

/-- How processing of one event ends: normally, with an uncaught `IndexError`
(`volume[0]` on an empty list), or with `sys.exit(code)`. -/
inductive Outcome where
  | normal
  | indexError
  | exitProcess (code : Nat)
deriving DecidableEq

/-- Result of processing one event: state at the end (or at the crash/exit
point), the effect trace emitted before ending, and how processing ended. -/
structure PResult where
  state : AState
  effects : List Effect
  outcome : Outcome
deriving DecidableEq

/-- `power_off_pi()`: say goodbye, then shut the machine down. -/
def power_off_pi : List Effect :=
  [.say "Good bye!", .shell "sudo shutdown now"]

/-- `reboot_pi()`: say a message, then reboot. -/
def reboot_pi : List Effect :=
  [.say "See you in a bit!", .shell "sudo reboot"]

/-- `say_ip()`: run the IP lookup command and speak its (external) output. -/
def say_ip (ip : String) : List Effect :=
  [.checkOutput "hostname -I | cut -d\x27 \x27 -f1", .say ("My IP address is " ++ ip)]

/-- `volume_down()`: read the TTS volume, set `0` if it is below 2, otherwise
decrease by 2, and speak a fixed confirmation. Returns the new volume and
the emitted effects. -/
def volume_down (v : Int) : Int × List Effect :=
  if v < 2 then (0, [.setVolume 0, .say "Ok, done"])
  else (v - 2, [.setVolume (v - 2), .say "Ok, done"])

/-- `volume_up()`: read the TTS volume, set `100` if it is above 98, otherwise
increase by 2, and speak a fixed confirmation. (Defined for completeness;
the dispatcher never calls it.) -/
def volume_up (v : Int) : Int × List Effect :=
  if v > 98 then (100, [.setVolume 100, .say "Ok, done"])
  else (v + 2, [.setVolume (v + 2), .say "Ok, done"])

/-- Event kinds of `google.assistant.library.event.EventType` used by the
source; `OTHER n` stands for any event kind the dispatcher does not name. -/
inductive EventType where
  | ON_START_FINISHED
  | ON_CONVERSATION_TURN_STARTED
  | ON_RECOGNIZING_SPEECH_FINISHED
  | ON_END_OF_UTTERANCE
  | ON_CONVERSATION_TURN_FINISHED
  | ON_ASSISTANT_ERROR
  | OTHER (n : Nat)
deriving DecidableEq

/-- Event arguments (`event.args`): recognized text for speech events and the
fatal flag for error events. `none` models absent/empty `args`. -/
structure EventArgs where
  text : String
  is_fatal : Bool
deriving DecidableEq

/-- One event of the assistant event stream. -/
structure Event where
  type : EventType
  args : Option EventArgs
deriving DecidableEq

/-- The `ON_RECOGNIZING_SPEECH_FINISHED` branch of `_process_event` (lines
120-149): print the text, lowercase, then the first-match-wins `elif` chain.
`ip` is the external output of the IP lookup, consumed only by `say_ip`. -/
def processSpeech (ip : String) (orig : String) (st : AState) : PResult :=
  let pre : List Effect := [.printOut ("You said: " ++ orig)]
  let text := pyLower orig
  if text = "power off" then
    ⟨st, pre ++ [.stopConversation] ++ power_off_pi, .normal⟩
  else if text = "reboot" then
    ⟨st, pre ++ [.stopConversation] ++ reboot_pi, .normal⟩
  else if truthy "what is" && pyContains text "ip address" then
    ⟨st, pre ++ [.stopConversation] ++ say_ip ip, .normal⟩
  else if pyContains text "repeat" then
    ⟨st, pre ++ [.stopConversation, .say (pyReplaceFirst text "repeat")], .normal⟩
  else if truthy "set" && pyContains text "secondary volume to" then
    let text2 := pyRemoveAll text '%'
    let volume := parseVolumes text2
    match volume with
    | [] => ⟨st, pre ++ [.stopConversation, .printVols []], .indexError⟩
    | v0 :: rest =>
        ⟨{ st with volume := v0 },
         pre ++ [.stopConversation, .printVols (v0 :: rest),
           .say ("Ok, I\x27ve set the secondary volume to" ++ toString v0 ++ "%"),
           .printVols (v0 :: rest), .setVolume v0],
         .normal⟩
  else if pyContains text "secondary volume down" then
    let r := volume_down st.volume
    ⟨{ st with volume := r.1 }, pre ++ [.stopConversation] ++ r.2, .normal⟩
  else if pyContains text "secondary volume up" then
    let r := volume_down st.volume
    ⟨{ st with volume := r.1 }, pre ++ [.stopConversation] ++ r.2, .normal⟩
  else
    ⟨st, pre, .normal⟩

/-- `MyAssistant._process_event`, one event.  `isatty` is `sys.stdout.isatty()`
and `ip` the external output of the IP lookup command. -/
def processEvent (isatty : Bool) (ip : String) (ev : Event) (st : AState) : PResult :=
  match ev.type with
  | .ON_START_FINISHED =>
      ⟨{ st with can_start_conversation := true },
       [.setStatus .ready, .registerButton] ++ (if isatty then [.printHint] else []),
       .normal⟩
  | .ON_CONVERSATION_TURN_STARTED =>
      ⟨{ st with can_start_conversation := false },
       [.setStatus .listening, .registerButton], .normal⟩
  | .ON_RECOGNIZING_SPEECH_FINISHED =>
      match ev.args with
      | some a => processSpeech ip a.text st
      | none => ⟨st, [], .normal⟩
  | .ON_END_OF_UTTERANCE =>
      ⟨st, [.setStatus .thinking], .normal⟩
  | .ON_CONVERSATION_TURN_FINISHED =>
      ⟨{ st with can_start_conversation := true }, [.setStatus .ready], .normal⟩
  | .ON_ASSISTANT_ERROR =>
      match ev.args with
      | some a => if a.is_fatal then ⟨st, [], .exitProcess 1⟩ else ⟨st, [], .normal⟩
      | none => ⟨st, [], .normal⟩
  | .OTHER _ => ⟨st, [], .normal⟩

/-- `MyAssistant._on_button_pressed`: start a conversation when the flag is
set, otherwise stop whatever is in progress.  It never writes the flag. -/
def on_button_pressed (st : AState) : List Effect :=
  if st.can_start_conversation then [.startConversation] else [.stopConversation]

/-- Thread the dispatcher state through a list of events (the state reached
after `_process_event` has run on each event in order). -/
def runEvents (isatty : Bool) (ip : String) : List Event → AState → AState
  | [], st => st
  | ev :: evs, st => runEvents isatty ip evs (processEvent isatty ip ev st).state

/-- The status-UI writes of an effect trace, in order. -/
def statusSets (effs : List Effect) : List Status :=
  effs.filterMap (fun e => match e with | .setStatus s => some s | _ => none)

example : pyLower "Power OFF" = "power off" := by decide
example : pyContains "tell me the ip address" "ip address" = true := by decide
example : pyReplaceFirst "please repeat that cat fact" "repeat" = "please  that cat fact" := by decide
example : parseVolumes (pyRemoveAll "set secondary volume to 42" '%') = [42] := by decide
example : parseVolumes "secondary volume to ten" = [] := by decide

theorem volume_down_eq (v : Int) :
    volume_down v = (max 0 (v - 2), [Effect.setVolume (max 0 (v - 2)), Effect.say "Ok, done"]) := by
  unfold volume_down
  split
  next h => rw [max_eq_left (by omega : v - 2 ≤ 0)]
  next h => rw [max_eq_right (by omega : (0 : Int) ≤ v - 2)]

theorem processSpeech_state_status (ip orig : String) (st : AState) :
    (processSpeech ip orig st).state.can_start_conversation = st.can_start_conversation ∧
    statusSets (processSpeech ip orig st).effects = [] := by
  simp only [processSpeech]
  repeat' split
  all_goals simp [statusSets, power_off_pi, reboot_pi, say_ip, volume_down_eq]

theorem isPrefixL_self_append (p l : List Char) : isPrefixL p (p ++ l) = true := by
  induction p with
  | nil => rfl
  | cons c cs ih => simp [isPrefixL, ih]

theorem containsL_nil (l : List Char) : containsL [] l = true := by
  cases l <;> simp [containsL, isPrefixL]

theorem containsL_middle (p a c : List Char) : containsL p (a ++ (p ++ c)) = true := by
  induction a with
  | nil =>
      cases p with
      | nil => simpa using containsL_nil c
      | cons d ds =>
          simp only [containsL, Bool.or_eq_true, List.nil_append]
          exact Or.inl (by simpa using isPrefixL_self_append (d :: ds) c)
  | cons x xs ih => simp [containsL, ih]

theorem pyContains_middle (a b c : String) : pyContains (a ++ b ++ c) b = true := by
  have : (a ++ b ++ c).data = a.data ++ (b.data ++ c.data) := by
    simp [String.data_append]
  simp [pyContains, this, containsL_middle]

/-- C1: For every event and every dispatcher state, the status writes and the
readiness flag follow the transition table: `ON_START_FINISHED` writes status
`ready` and sets readiness true; `ON_CONVERSATION_TURN_STARTED` writes
`listening` and sets readiness false; `ON_END_OF_UTTERANCE` writes `thinking`
and leaves readiness unchanged; `ON_CONVERSATION_TURN_FINISHED` writes `ready`
and sets readiness true; every other event kind writes no status and leaves
readiness unchanged. -/
theorem process_event_status_table (isatty : Bool) (ip : String) (ev : Event) (st : AState) :
    (ev.type = EventType.ON_START_FINISHED →
      statusSets (processEvent isatty ip ev st).effects = [Status.ready] ∧
      (processEvent isatty ip ev st).state.can_start_conversation = true) ∧
    (ev.type = EventType.ON_CONVERSATION_TURN_STARTED →
      statusSets (processEvent isatty ip ev st).effects = [Status.listening] ∧
      (processEvent isatty ip ev st).state.can_start_conversation = false) ∧
    (ev.type = EventType.ON_END_OF_UTTERANCE →
      statusSets (processEvent isatty ip ev st).effects = [Status.thinking] ∧
      (processEvent isatty ip ev st).state.can_start_conversation = st.can_start_conversation) ∧
    (ev.type = EventType.ON_CONVERSATION_TURN_FINISHED →
      statusSets (processEvent isatty ip ev st).effects = [Status.ready] ∧
      (processEvent isatty ip ev st).state.can_start_conversation = true) ∧
    (ev.type ≠ EventType.ON_START_FINISHED →
     ev.type ≠ EventType.ON_CONVERSATION_TURN_STARTED →
     ev.type ≠ EventType.ON_END_OF_UTTERANCE →
     ev.type ≠ EventType.ON_CONVERSATION_TURN_FINISHED →
      statusSets (processEvent isatty ip ev st).effects = [] ∧
      (processEvent isatty ip ev st).state.can_start_conversation = st.can_start_conversation) := by
  rcases ev with ⟨ty, args⟩
  cases ty
  case ON_START_FINISHED => cases isatty <;> simp [processEvent, statusSets]
  case ON_CONVERSATION_TURN_STARTED => simp [processEvent, statusSets]
  case ON_RECOGNIZING_SPEECH_FINISHED =>
    cases args with
    | none => simp [processEvent, statusSets]
    | some a =>
        have h := processSpeech_state_status ip a.text st
        simp [processEvent, h.1, h.2]
  case ON_END_OF_UTTERANCE => simp [processEvent, statusSets]
  case ON_CONVERSATION_TURN_FINISHED => simp [processEvent, statusSets]
  case ON_ASSISTANT_ERROR =>
    cases args with
    | none => simp [processEvent, statusSets]
    | some a => cases ha : a.is_fatal <;> simp [processEvent, ha, statusSets]
  case OTHER n => simp [processEvent, statusSets]

/-- Witness for C1 at the concrete event `ON_START_FINISHED`. -/
theorem process_event_status_table_witness :
    statusSets (processEvent false "" ⟨EventType.ON_START_FINISHED, none⟩ initState).effects = [Status.ready] ∧
    (processEvent false "" ⟨EventType.ON_START_FINISHED, none⟩ initState).state.can_start_conversation = true :=
  (process_event_status_table false "" ⟨EventType.ON_START_FINISHED, none⟩ initState).1 rfl

/-- C2: For every state of the flag, the button callback requests
`startConversation` when the flag is true and `stopConversation` when it is
false; its effect list is never empty and never holds both requests. -/
theorem on_button_pressed_contract (st : AState) :
    (st.can_start_conversation = true → on_button_pressed st = [Effect.startConversation]) ∧
    (st.can_start_conversation = false → on_button_pressed st = [Effect.stopConversation]) ∧
    on_button_pressed st ≠ [] ∧
    ¬(Effect.startConversation ∈ on_button_pressed st ∧
      Effect.stopConversation ∈ on_button_pressed st) := by
  cases h : st.can_start_conversation <;> simp [on_button_pressed, h]

/-- Witness for C2 at both concrete flag values. -/
theorem on_button_pressed_contract_witness :
    on_button_pressed ⟨true, 2⟩ = [Effect.startConversation] ∧
    on_button_pressed ⟨false, 2⟩ = [Effect.stopConversation] :=
  ⟨(on_button_pressed_contract ⟨true, 2⟩).1 rfl,
   (on_button_pressed_contract ⟨false, 2⟩).2.1 rfl⟩

/-- C3: When a speech event carries text whose lowercasing is exactly
"power off", the dispatcher emits exactly one `stopConversation`, then the
power-off action (goodbye message and shutdown command) exactly once, and no
report-IP, repeat, or volume effect. -/
theorem power_off_dispatch (isatty : Bool) (ip orig : String) (f : Bool) (st : AState)
    (h : pyLower orig = "power off") :
    processEvent isatty ip ⟨EventType.ON_RECOGNIZING_SPEECH_FINISHED, some ⟨orig, f⟩⟩ st =
      ⟨st, [Effect.printOut ("You said: " ++ orig), Effect.stopConversation,
            Effect.say "Good bye!", Effect.shell "sudo shutdown now"], Outcome.normal⟩ ∧
    (processEvent isatty ip ⟨EventType.ON_RECOGNIZING_SPEECH_FINISHED, some ⟨orig, f⟩⟩ st).effects.count
      Effect.stopConversation = 1 ∧
    (processEvent isatty ip ⟨EventType.ON_RECOGNIZING_SPEECH_FINISHED, some ⟨orig, f⟩⟩ st).effects.count
      (Effect.shell "sudo shutdown now") = 1 ∧
    (∀ v, Effect.setVolume v ∉
      (processEvent isatty ip ⟨EventType.ON_RECOGNIZING_SPEECH_FINISHED, some ⟨orig, f⟩⟩ st).effects) ∧
    (∀ c, Effect.checkOutput c ∉
      (processEvent isatty ip ⟨EventType.ON_RECOGNIZING_SPEECH_FINISHED, some ⟨orig, f⟩⟩ st).effects) ∧
    (∀ s, Effect.say s ∈
      (processEvent isatty ip ⟨EventType.ON_RECOGNIZING_SPEECH_FINISHED, some ⟨orig, f⟩⟩ st).effects →
      s = "Good bye!") := by
  have e : processEvent isatty ip ⟨EventType.ON_RECOGNIZING_SPEECH_FINISHED, some ⟨orig, f⟩⟩ st =
      ⟨st, [Effect.printOut ("You said: " ++ orig), Effect.stopConversation,
            Effect.say "Good bye!", Effect.shell "sudo shutdown now"], Outcome.normal⟩ := by
    simp [processEvent, processSpeech, h, power_off_pi]
  refine ⟨e, ?_, ?_, ?_, ?_, ?_⟩ <;> rw [e] <;> simp [List.count_cons]

/-- Witness for C3 at the concrete text "power off". -/
theorem power_off_dispatch_witness :
    processEvent false "" ⟨EventType.ON_RECOGNIZING_SPEECH_FINISHED, some ⟨"power off", false⟩⟩ initState =
      ⟨initState, [Effect.printOut "You said: power off", Effect.stopConversation,
        Effect.say "Good bye!", Effect.shell "sudo shutdown now"], Outcome.normal⟩ :=
  ((power_off_dispatch false "" "power off" false initState (by decide)).1).trans (by decide)

/-- C6: Every speech text whose lowercasing contains "ip address" and is not
exactly "power off" or "reboot" triggers a `stopConversation` followed by the
report-IP action; the guard's "what is" conjunct is a (vacuously true) string
literal, so no hypothesis about "what is" is needed. -/
theorem ip_address_dispatch (isatty : Bool) (ip orig : String) (f : Bool) (st : AState)
    (h1 : pyLower orig ≠ "power off") (h2 : pyLower orig ≠ "reboot")
    (h3 : pyContains (pyLower orig) "ip address" = true) :
    truthy "what is" = true ∧
    processEvent isatty ip ⟨EventType.ON_RECOGNIZING_SPEECH_FINISHED, some ⟨orig, f⟩⟩ st =
      ⟨st, [Effect.printOut ("You said: " ++ orig), Effect.stopConversation,
            Effect.checkOutput "hostname -I | cut -d\x27 \x27 -f1",
            Effect.say ("My IP address is " ++ ip)], Outcome.normal⟩ := by
  constructor
  · rfl
  · simp [processEvent, processSpeech, h1, h2, h3, say_ip,
      show truthy "what is" = true from rfl]

/-- Witness for C6 at a text that does not contain "what is". -/
theorem ip_address_dispatch_witness :
    processEvent false "10.0.0.7"
        ⟨EventType.ON_RECOGNIZING_SPEECH_FINISHED, some ⟨"tell me the ip address", false⟩⟩ initState =
      ⟨initState, [Effect.printOut "You said: tell me the ip address", Effect.stopConversation,
        Effect.checkOutput "hostname -I | cut -d\x27 \x27 -f1",
        Effect.say "My IP address is 10.0.0.7"], Outcome.normal⟩ :=
  ((ip_address_dispatch false "10.0.0.7" "tell me the ip address" false initState
      (by decide) (by decide) (by decide)).2).trans (by decide)

/-- C7: Every speech text whose lowercasing contains "repeat" and matches no
earlier rule triggers a `stopConversation` and then speaks the lowercased text
with exactly the first occurrence of "repeat" removed. -/
theorem repeat_dispatch (isatty : Bool) (ip orig : String) (f : Bool) (st : AState)
    (h1 : pyLower orig ≠ "power off") (h2 : pyLower orig ≠ "reboot")
    (h3 : pyContains (pyLower orig) "ip address" = false)
    (h4 : pyContains (pyLower orig) "repeat" = true) :
    processEvent isatty ip ⟨EventType.ON_RECOGNIZING_SPEECH_FINISHED, some ⟨orig, f⟩⟩ st =
      ⟨st, [Effect.printOut ("You said: " ++ orig), Effect.stopConversation,
            Effect.say (pyReplaceFirst (pyLower orig) "repeat")], Outcome.normal⟩ := by
  simp [processEvent, processSpeech, h1, h2, h3, h4]

/-- Witness for C7: "please repeat that cat fact" is spoken back as
"please  that cat fact", double space preserved. -/
theorem repeat_dispatch_witness :
    processEvent false ""
        ⟨EventType.ON_RECOGNIZING_SPEECH_FINISHED, some ⟨"please repeat that cat fact", false⟩⟩ initState =
      ⟨initState, [Effect.printOut "You said: please repeat that cat fact", Effect.stopConversation,
        Effect.say "please  that cat fact"], Outcome.normal⟩ :=
  (repeat_dispatch false "" "please repeat that cat fact" false initState
      (by decide) (by decide) (by decide) (by decide)).trans (by decide)

/-- C4 counterexample: for the text "secondary volume to 200" (which contains
"secondary volume to" and the digit token 200, and matches no earlier rule)
the dispatcher sets the TTS volume to 200, not to the clamped value 100 — the
source performs no clamping to [0,100]. -/
theorem set_volume_clamp_cex :
    pyContains (pyLower "secondary volume to 200") "secondary volume to" = true ∧
    Effect.setVolume 200 ∈ (processEvent false ""
      ⟨EventType.ON_RECOGNIZING_SPEECH_FINISHED, some ⟨"secondary volume to 200", false⟩⟩
      initState).effects ∧
    Effect.setVolume 100 ∉ (processEvent false ""
      ⟨EventType.ON_RECOGNIZING_SPEECH_FINISHED, some ⟨"secondary volume to 200", false⟩⟩
      initState).effects ∧
    (processEvent false ""
      ⟨EventType.ON_RECOGNIZING_SPEECH_FINISHED, some ⟨"secondary volume to 200", false⟩⟩
      initState).state.volume = 200 := by decide

/-- C4 amended: every speech text (lowercased, matching no earlier rule)
containing "secondary volume to" with at least one digit token makes the
dispatcher stop the conversation, take the first parsed digit token `v0`
(with no clamping), speak a confirmation containing the number, and set the
TTS volume to `v0`; the confirmation is spoken before the volume is set. -/
theorem set_volume_dispatch (isatty : Bool) (ip orig : String) (f : Bool) (st : AState)
    (v0 : Int) (rest : List Int)
    (h1 : pyLower orig ≠ "power off") (h2 : pyLower orig ≠ "reboot")
    (h3 : pyContains (pyLower orig) "ip address" = false)
    (h4 : pyContains (pyLower orig) "repeat" = false)
    (h5 : pyContains (pyLower orig) "secondary volume to" = true)
    (h6 : parseVolumes (pyRemoveAll (pyLower orig) '%') = v0 :: rest) :
    processEvent isatty ip ⟨EventType.ON_RECOGNIZING_SPEECH_FINISHED, some ⟨orig, f⟩⟩ st =
      ⟨{ st with volume := v0 },
       [Effect.printOut ("You said: " ++ orig), Effect.stopConversation,
        Effect.printVols (v0 :: rest),
        Effect.say ("Ok, I\x27ve set the secondary volume to" ++ toString v0 ++ "%"),
        Effect.printVols (v0 :: rest), Effect.setVolume v0], Outcome.normal⟩ ∧
    pyContains ("Ok, I\x27ve set the secondary volume to" ++ toString v0 ++ "%")
      (toString v0) = true := by
  constructor
  · simp [processEvent, processSpeech, h1, h2, h3, h4, h5, h6,
      show truthy "set" = true from rfl]
  · exact pyContains_middle "Ok, I\x27ve set the secondary volume to" (toString v0) "%"

/-- Witness for the amended C4 at "set secondary volume to 42%": the volume is
set to 42 and the spoken confirmation contains "42". -/
theorem set_volume_dispatch_witness :
    processEvent false ""
        ⟨EventType.ON_RECOGNIZING_SPEECH_FINISHED, some ⟨"set secondary volume to 42%", false⟩⟩
        initState =
      ⟨⟨false, 42⟩, [Effect.printOut "You said: set secondary volume to 42%",
        Effect.stopConversation, Effect.printVols [42],
        Effect.say "Ok, I\x27ve set the secondary volume to42%",
        Effect.printVols [42], Effect.setVolume 42], Outcome.normal⟩ ∧
    pyContains "Ok, I\x27ve set the secondary volume to42%" "42" = true := by
  have h := set_volume_dispatch false "" "set secondary volume to 42%" false initState 42 []
    (by decide) (by decide) (by decide) (by decide) (by decide) (by decide)
  exact ⟨h.1.trans (by decide), by decide⟩

/-- C5: every speech text (lowercased, matching no earlier rule) containing
"secondary volume down" makes the dispatcher stop the conversation and set the
TTS volume to `max 0 (previous - 2)` with the fixed confirmation "Ok, done";
and every such text containing "secondary volume up" invokes the very same
decrease action (the source calls `volume_down` in the volume-up branch). -/
theorem secondary_volume_down_up (isatty : Bool) (ip orig : String) (f : Bool) (st : AState)
    (h1 : pyLower orig ≠ "power off") (h2 : pyLower orig ≠ "reboot")
    (h3 : pyContains (pyLower orig) "ip address" = false)
    (h4 : pyContains (pyLower orig) "repeat" = false)
    (h5 : pyContains (pyLower orig) "secondary volume to" = false) :
    (pyContains (pyLower orig) "secondary volume down" = true →
      processEvent isatty ip ⟨EventType.ON_RECOGNIZING_SPEECH_FINISHED, some ⟨orig, f⟩⟩ st =
        ⟨{ st with volume := max 0 (st.volume - 2) },
         [Effect.printOut ("You said: " ++ orig), Effect.stopConversation,
          Effect.setVolume (max 0 (st.volume - 2)), Effect.say "Ok, done"], Outcome.normal⟩) ∧
    (pyContains (pyLower orig) "secondary volume up" = true →
      processEvent isatty ip ⟨EventType.ON_RECOGNIZING_SPEECH_FINISHED, some ⟨orig, f⟩⟩ st =
        ⟨{ st with volume := max 0 (st.volume - 2) },
         [Effect.printOut ("You said: " ++ orig), Effect.stopConversation,
          Effect.setVolume (max 0 (st.volume - 2)), Effect.say "Ok, done"], Outcome.normal⟩) := by
  constructor
  · intro h6
    simp [processEvent, processSpeech, h1, h2, h3, h4, h5, h6, volume_down_eq]
  · intro h6
    by_cases h7 : pyContains (pyLower orig) "secondary volume down" = true
    · simp [processEvent, processSpeech, h1, h2, h3, h4, h5, h7, volume_down_eq]
    · rw [Bool.not_eq_true] at h7
      simp [processEvent, processSpeech, h1, h2, h3, h4, h5, h6, h7, volume_down_eq]

/-- Witness for C5: "secondary volume down" lowers the volume from 2 to 0, and
"turn secondary volume up" also lowers it (the source defect). -/
theorem secondary_volume_down_up_witness :
    processEvent false ""
        ⟨EventType.ON_RECOGNIZING_SPEECH_FINISHED, some ⟨"secondary volume down", false⟩⟩ initState =
      ⟨⟨false, 0⟩, [Effect.printOut "You said: secondary volume down", Effect.stopConversation,
        Effect.setVolume 0, Effect.say "Ok, done"], Outcome.normal⟩ ∧
    processEvent false ""
        ⟨EventType.ON_RECOGNIZING_SPEECH_FINISHED, some ⟨"turn secondary volume up", false⟩⟩ initState =
      ⟨⟨false, 0⟩, [Effect.printOut "You said: turn secondary volume up", Effect.stopConversation,
        Effect.setVolume 0, Effect.say "Ok, done"], Outcome.normal⟩ := by
  have hd := (secondary_volume_down_up false "" "secondary volume down" false initState
    (by decide) (by decide) (by decide) (by decide) (by decide)).1 (by decide)
  have hu := (secondary_volume_down_up false "" "turn secondary volume up" false initState
    (by decide) (by decide) (by decide) (by decide) (by decide)).2 (by decide)
  exact ⟨hd.trans (by decide), hu.trans (by decide)⟩

/-- C8: an `ON_ASSISTANT_ERROR` event with the fatal flag set terminates the
process with exit code 1 and no other effect; with the flag false or with no
arguments, it terminates nothing and changes no state. -/
theorem assistant_error_dispatch (isatty : Bool) (ip : String) (args : Option EventArgs)
    (st : AState) :
    (∀ a, args = some a → a.is_fatal = true →
      processEvent isatty ip ⟨EventType.ON_ASSISTANT_ERROR, args⟩ st =
        ⟨st, [], Outcome.exitProcess 1⟩) ∧
    (∀ a, args = some a → a.is_fatal = false →
      processEvent isatty ip ⟨EventType.ON_ASSISTANT_ERROR, args⟩ st =
        ⟨st, [], Outcome.normal⟩) ∧
    (args = none →
      processEvent isatty ip ⟨EventType.ON_ASSISTANT_ERROR, args⟩ st =
        ⟨st, [], Outcome.normal⟩) := by
  refine ⟨?_, ?_, ?_⟩
  · rintro a rfl hf
    simp [processEvent, hf]
  · rintro a rfl hf
    simp [processEvent, hf]
  · rintro rfl
    simp [processEvent]

/-- Witness for C8 at all three concrete argument shapes. -/
theorem assistant_error_dispatch_witness :
    processEvent false "" ⟨EventType.ON_ASSISTANT_ERROR, some ⟨"", true⟩⟩ initState =
      ⟨initState, [], Outcome.exitProcess 1⟩ ∧
    processEvent false "" ⟨EventType.ON_ASSISTANT_ERROR, some ⟨"", false⟩⟩ initState =
      ⟨initState, [], Outcome.normal⟩ ∧
    processEvent false "" ⟨EventType.ON_ASSISTANT_ERROR, none⟩ initState =
      ⟨initState, [], Outcome.normal⟩ :=
  ⟨(assistant_error_dispatch false "" (some ⟨"", true⟩) initState).1 ⟨"", true⟩ rfl rfl,
   (assistant_error_dispatch false "" (some ⟨"", false⟩) initState).2.1 ⟨"", false⟩ rfl rfl,
   (assistant_error_dispatch false "" none initState).2.2 rfl⟩

/-- C9: the concrete text "secondary volume to ten" contains
"secondary volume to" but no digit token; processing it ends in an uncaught
`IndexError` (indexing the empty parsed-digit list), after the
`stopConversation` request has already been emitted — the request is not
rolled back. -/
theorem set_volume_no_digits_raises :
    (processEvent false ""
      ⟨EventType.ON_RECOGNIZING_SPEECH_FINISHED, some ⟨"secondary volume to ten", false⟩⟩
      initState).outcome = Outcome.indexError ∧
    (processEvent false ""
      ⟨EventType.ON_RECOGNIZING_SPEECH_FINISHED, some ⟨"secondary volume to ten", false⟩⟩
      initState).effects =
      [Effect.printOut "You said: secondary volume to ten", Effect.stopConversation,
       Effect.printVols []] ∧
    Effect.stopConversation ∈ (processEvent false ""
      ⟨EventType.ON_RECOGNIZING_SPEECH_FINISHED, some ⟨"secondary volume to ten", false⟩⟩
      initState).effects ∧
    (processEvent false ""
      ⟨EventType.ON_RECOGNIZING_SPEECH_FINISHED, some ⟨"secondary volume to ten", false⟩⟩
      initState).state = initState := by decide

theorem runEvents_flag_false (isatty : Bool) (ip : String) :
    ∀ (evs : List Event) (st : AState),
      (∀ ev ∈ evs, ev.type ≠ EventType.ON_START_FINISHED ∧
        ev.type ≠ EventType.ON_CONVERSATION_TURN_FINISHED) →
      st.can_start_conversation = false →
      (runEvents isatty ip evs st).can_start_conversation = false
  | [], st, _, hst => hst
  | ev :: evs, st, h, hst => by
      have hev := h ev (List.mem_cons_self ev evs)
      have hstep : (processEvent isatty ip ev st).state.can_start_conversation = false := by
        rcases ev with ⟨ty, args⟩
        cases ty
        case ON_START_FINISHED => exact absurd rfl hev.1
        case ON_CONVERSATION_TURN_FINISHED => exact absurd rfl hev.2
        case ON_CONVERSATION_TURN_STARTED => simp [processEvent]
        case ON_RECOGNIZING_SPEECH_FINISHED =>
          cases args with
          | none => simpa [processEvent] using hst
          | some a =>
              have hp := (processSpeech_state_status ip a.text st).1
              simp [processEvent, hp, hst]
        case ON_END_OF_UTTERANCE => simpa [processEvent] using hst
        case ON_ASSISTANT_ERROR =>
          cases args with
          | none => simpa [processEvent] using hst
          | some a => cases ha : a.is_fatal <;> simp [processEvent, ha, hst]
        case OTHER n => simpa [processEvent] using hst
      exact runEvents_flag_false isatty ip evs _
        (fun e he => h e (List.mem_cons_of_mem _ he)) hstep

/-- C10 counterexample: the event sequence `TURN_STARTED, TURN_FINISHED`
contains no `ON_START_FINISHED`, yet after processing it a button press
requests `startConversation` — `CONVERSATION_TURN_FINISHED` also sets the
readiness flag, so the claim as stated fails. -/
theorem readiness_before_start_cex :
    (∀ ev ∈ [(⟨EventType.ON_CONVERSATION_TURN_STARTED, none⟩ : Event),
             ⟨EventType.ON_CONVERSATION_TURN_FINISHED, none⟩],
      ev.type ≠ EventType.ON_START_FINISHED) ∧
    on_button_pressed (runEvents false ""
      [⟨EventType.ON_CONVERSATION_TURN_STARTED, none⟩,
       ⟨EventType.ON_CONVERSATION_TURN_FINISHED, none⟩] initState) =
      [Effect.startConversation] := by decide

/-- C10 amended: the readiness flag starts false at construction, and stays
false across any event sequence containing neither `ON_START_FINISHED` nor
`ON_CONVERSATION_TURN_FINISHED`; every button press in that window requests
`stopConversation` and never `startConversation`. -/
theorem readiness_init_button_stop (isatty : Bool) (ip : String) (evs : List Event)
    (h : ∀ ev ∈ evs, ev.type ≠ EventType.ON_START_FINISHED ∧
      ev.type ≠ EventType.ON_CONVERSATION_TURN_FINISHED) :
    initState.can_start_conversation = false ∧
    (runEvents isatty ip evs initState).can_start_conversation = false ∧
    on_button_pressed (runEvents isatty ip evs initState) = [Effect.stopConversation] := by
  have h2 := runEvents_flag_false isatty ip evs initState h rfl
  exact ⟨rfl, h2, by simp [on_button_pressed, h2]⟩

/-- Witness for the amended C10 on a concrete event sequence without
`ON_START_FINISHED` or `ON_CONVERSATION_TURN_FINISHED`. -/
theorem readiness_init_button_stop_witness :
    on_button_pressed (runEvents false ""
      [⟨EventType.ON_CONVERSATION_TURN_STARTED, none⟩,
       ⟨EventType.ON_END_OF_UTTERANCE, none⟩] initState) = [Effect.stopConversation] :=
  (readiness_init_button_stop false ""
    [⟨EventType.ON_CONVERSATION_TURN_STARTED, none⟩,
     ⟨EventType.ON_END_OF_UTTERANCE, none⟩] (by decide)).2.2
